import Mathlib

/-!
Verification development for the synthetic-data generation engine of the
fantasy-draft repository.  The Go source is shallowly embedded: Go `int`
becomes `ℤ`, Go `float64` becomes `ℚ` with exact arithmetic, Go's stateful
`math/rand` sources become explicit streams of draws (`ℕ → ℚ`) threaded by
index, and the injectable dependencies of `CareerSimulator` become explicit
function parameters threading an abstract random-state type `σ`.
-/

namespace FantasyDraft

/-- Go conversion `int(x)` of a float to an int truncates toward zero. -/
def goTrunc (q : ℚ) : ℤ :=
  if q < 0 then -(Int.floor (-q)) else Int.floor q

/-- Embedding of the Go struct `FootballStats` (22 counting-stat fields,
declared in source order). -/
structure FootballStats where
  PassingAttempts : ℤ
  PassingCompletions : ℤ
  PassingInterceptions : ℤ
  PassingTDs : ℤ
  PassingYards : ℤ
  RushingAttempts : ℤ
  RushingYards : ℤ
  ReceivingYards : ℤ
  RushingTDs : ℤ
  ReceivingReceptions : ℤ
  ReceivingTDs : ℤ
  ReceivingTargets : ℤ
  Fumbles : ℤ
  FumblesLost : ℤ
  FieldGoals : ℤ
  FieldGoalsMade : ℤ
  FieldGoalsMissed : ℤ
  FieldGoalsBlocked : ℤ
  FieldGoalsBlockedMade : ℤ
  ExtraPoints : ℤ
  ExtraPointsMade : ℤ
  ExtraPointsMissed : ℤ
deriving DecidableEq

/-- Go zero value `FootballStats{}`. -/
def emptyFootballStats : FootballStats :=
  ⟨0, 0, 0, 0, 0, 0, 0, 0, 0, 0, 0, 0, 0, 0, 0, 0, 0, 0, 0, 0, 0, 0⟩

/-- Embedding of the Go struct `FootballYearlyStats`. -/
structure FootballYearlyStats where
  Total : FootballStats
deriving DecidableEq

/-- Embedding of the Go struct `Player` (fields in source order;
`Skill` is a Go `float64`, embedded as `ℚ`). -/
structure Player where
  ID : String
  FirstName : String
  LastName : String
  Position : String
  TeamID : String
  Height : ℤ
  Weight : ℤ
  Age : ℤ
  YearsOfExperience : ℤ
  DraftYear : ℤ
  Skill : ℚ
  Status : String
  Jersey : ℤ
deriving DecidableEq

/-- Embedding of the Go struct `PlayerYearlyStatsFootball`. -/
structure PlayerYearlyStatsFootball where
  PlayerID : String
  Year : ℤ
  Stats : FootballYearlyStats
deriving DecidableEq

/-- The accumulation step of `SimulateYear`: exactly the 14 `+=` lines of the
source loop.  The 8 kicking fields of the accumulator are never assigned and
so keep their previous values. -/
def accumulateGame (yearlyStats gameStats : FootballStats) : FootballStats :=
  { yearlyStats with
    PassingAttempts := yearlyStats.PassingAttempts + gameStats.PassingAttempts
    PassingCompletions := yearlyStats.PassingCompletions + gameStats.PassingCompletions
    PassingInterceptions := yearlyStats.PassingInterceptions + gameStats.PassingInterceptions
    PassingTDs := yearlyStats.PassingTDs + gameStats.PassingTDs
    PassingYards := yearlyStats.PassingYards + gameStats.PassingYards
    RushingAttempts := yearlyStats.RushingAttempts + gameStats.RushingAttempts
    RushingYards := yearlyStats.RushingYards + gameStats.RushingYards
    ReceivingYards := yearlyStats.ReceivingYards + gameStats.ReceivingYards
    RushingTDs := yearlyStats.RushingTDs + gameStats.RushingTDs
    ReceivingReceptions := yearlyStats.ReceivingReceptions + gameStats.ReceivingReceptions
    ReceivingTDs := yearlyStats.ReceivingTDs + gameStats.ReceivingTDs
    ReceivingTargets := yearlyStats.ReceivingTargets + gameStats.ReceivingTargets
    Fumbles := yearlyStats.Fumbles + gameStats.Fumbles
    FumblesLost := yearlyStats.FumblesLost + gameStats.FumblesLost }

/-- Embedding of `CareerSimulator` plus its `YearSimulatorConfig` dependencies.
The injury roller and stats generator are stateful in Go (they consume a
shared random source); the state is made explicit as `σ`.  The stat
multiplier is a pure function in the source default. -/
structure SimConfig (σ : Type) where
  gamesPerSeason : ℕ
  injuryRoller : ℤ → String → σ → (Bool × ℤ) × σ
  statsGenerator : Player → ℤ → σ → FootballStats × σ
  statMultiplier : Player → ℤ → FootballStats → FootballStats

/-- The mutable loop state of `SimulateYear`: `isInjured`, `injuryGameCount`,
the running `yearlyStats` accumulator, and the random source state. -/
structure SimState (σ : Type) where
  isInjured : Bool
  injuryGameCount : ℤ
  yearlyStats : FootballStats
  rng : σ

/-- One iteration of the `SimulateYear` loop body, translated branch by
branch from the source: an injured game decrements the countdown (recovering
once it reaches zero) and produces no stats; a healthy game rolls for injury
(setting the injured state if the roll triggers), then still generates and
accumulates stats for this game. -/
def simStep {σ : Type} (cfg : SimConfig σ) (player : Player) (yoe : ℤ)
    (st : SimState σ) : SimState σ :=
  if st.isInjured then
    let c := st.injuryGameCount - 1
    if c ≤ 0 then { st with isInjured := false, injuryGameCount := c }
    else { st with injuryGameCount := c }
  else
    let roll := cfg.injuryRoller player.Age player.Position st.rng
    let wasInjured := roll.1.1
    let injuryGamesAffected := roll.1.2
    let afterGen := cfg.statsGenerator player yoe roll.2
    let gameStats := cfg.statMultiplier player yoe afterGen.1
    { isInjured := if wasInjured then true else st.isInjured
      injuryGameCount := if wasInjured then injuryGamesAffected else st.injuryGameCount
      yearlyStats := accumulateGame st.yearlyStats gameStats
      rng := afterGen.2 }

/-- The `for range sim.gamesPerSeason` loop of `SimulateYear`. -/
def simGames {σ : Type} (cfg : SimConfig σ) (player : Player) (yoe : ℤ) :
    ℕ → SimState σ → SimState σ
  | 0, st => st
  | n + 1, st => simGames cfg player yoe n (simStep cfg player yoe st)

/-- The local `playerYearsOfExperience := player.DraftYear - year` of
`SimulateYear`. -/
def playerYearsOfExperience (player : Player) (year : ℤ) : ℤ :=
  player.DraftYear - year

/-- Embedding of `CareerSimulator.SimulateYear`: walk the configured number
of games from the healthy state with a zeroed accumulator, returning the
accumulated totals (and the final random-source state). -/
def SimulateYear {σ : Type} (cfg : SimConfig σ) (player : Player) (year : ℤ)
    (s0 : σ) : FootballYearlyStats × σ :=
  let final := simGames cfg player (playerYearsOfExperience player year)
    cfg.gamesPerSeason ⟨false, 0, emptyFootballStats, s0⟩
  (⟨final.yearlyStats⟩, final.rng)

/-- Embedding of `CareerSimulator.CreateYear`. -/
def CreateYear {σ : Type} (cfg : SimConfig σ) (player : Player) (year : ℤ)
    (s : σ) : PlayerYearlyStatsFootball × σ :=
  let r := SimulateYear cfg player year s
  (⟨player.ID, year, r.1⟩, r.2)

/-- The `for i := range careerYears` loop of `CreateCareer`: one simulated
season per iteration, with the year incremented after each. -/
def careerLoop {σ : Type} (cfg : SimConfig σ) (player : Player) :
    ℕ → ℤ → σ → List PlayerYearlyStatsFootball × σ
  | 0, _, s => ([], s)
  | n + 1, y, s =>
    let r := CreateYear cfg player y s
    let rest := careerLoop cfg player n (y + 1) r.2
    (r.1 :: rest.1, rest.2)

/-- Embedding of `CareerSimulator.CreateCareer`.  The clock is embedded as
the explicit `currentYear` argument.  A player whose draft year equals the
current year gets a single all-zero rookie season; otherwise
`careerYears := currentYear - draftYear` seasons are simulated starting at
the draft year.  (`Int.toNat` models Go's loop executing zero times when the
count is not positive.) -/
def CreateCareer {σ : Type} (cfg : SimConfig σ) (player : Player)
    (currentYear : ℤ) (s : σ) : List PlayerYearlyStatsFootball × σ :=
  if player.DraftYear = currentYear then
    ([⟨player.ID, currentYear, ⟨emptyFootballStats⟩⟩], s)
  else
    careerLoop cfg player (currentYear - player.DraftYear).toNat player.DraftYear s

/-- Embedding of `normalInRange`: a bounded pseudo-normal draw.  The Go
call `rand.NormFloat64()` is embedded as the explicit draw `draws i`; the
returned index is the stream position after consuming one draw. -/
def normalInRange (draws : ℕ → ℚ) (low high : ℚ) (i : ℕ) : ℚ × ℕ :=
  let mean := (low + high) / 2
  let stdDev := (high - low) / 6
  let result := draws i * stdDev + mean
  let result := if result < low then low else result
  let result := if result > high then high else result
  (result, i + 1)

/-- Embedding of `normalIntInRange`:
`int(normalInRange(float64(low), float64(high)+0.5))`. -/
def normalIntInRange (draws : ℕ → ℚ) (low high : ℤ) (i : ℕ) : ℤ × ℕ :=
  let r := normalInRange draws (low : ℚ) ((high : ℚ) + 1/2) i
  (goTrunc r.1, r.2)

/-- Embedding of `rollForInjury`.  The uniform draw `rand.Float64()` is
`draws i`; when the roll triggers, the games-missed count consumes one more
draw through `normalIntInRange`. -/
def rollForInjury (draws : ℕ → ℚ) (playerAge : ℤ) (playerPosition : String)
    (i : ℕ) : (Bool × ℤ) × ℕ :=
  let injuryRate : ℚ :=
    if playerAge < 25 then 4/100
    else if playerAge < 30 then 6/100
    else if playerAge < 35 then 10/100
    else 12/100
  let injuryRate : ℚ :=
    if playerPosition = "QB" then injuryRate * (5/10)
    else if playerPosition = "RB" then injuryRate * 1
    else if playerPosition = "WR" then injuryRate * (8/10)
    else if playerPosition = "TE" then injuryRate * (8/10)
    else if playerPosition = "PK" then injuryRate * (25/100)
    else injuryRate
  let wasInjured := draws i < injuryRate
  if wasInjured then
    let r := normalIntInRange draws 1 20 (i + 1)
    ((true, r.1), r.2)
  else
    ((false, 0), i + 1)

/-- Embedding of `quarterBackGenerator.generate`, draws consumed in source
order. -/
def quarterBackGenerate (draws : ℕ → ℚ) (player : Player) (yoe : ℤ)
    (i : ℕ) : FootballStats × ℕ :=
  let r1 := normalIntInRange draws 0 4 i
  let passingTouchdowns := r1.1
  let r2 := normalIntInRange draws 0 2 r1.2
  let passingInterceptions := r2.1
  let r3 := normalIntInRange draws 25 45 r2.2
  let passingAttempts := r3.1
  let r4 := normalIntInRange draws 15 32 r3.2
  let passingCompletions := r4.1
  let r5 := normalIntInRange draws 8 14 r4.2
  let passingAverage := r5.1
  let passingYards := passingCompletions * passingAverage
  let r6 := normalIntInRange draws 1 6 r5.2
  let rushingAttempts := r6.1
  let r7 := normalIntInRange draws 5 35 r6.2
  let rushingYards := r7.1
  let r8 := normalIntInRange draws 0 1 r7.2
  let rushingTDs := r8.1
  let r9 := normalIntInRange draws 0 1 r8.2
  let fumbles := r9.1
  let r10 := normalIntInRange draws 0 fumbles r9.2
  let fumblesLost := r10.1
  ({ emptyFootballStats with
      PassingAttempts := passingAttempts
      PassingCompletions := passingCompletions
      PassingInterceptions := passingInterceptions
      PassingTDs := passingTouchdowns
      PassingYards := passingYards
      RushingAttempts := rushingAttempts
      RushingYards := rushingYards
      RushingTDs := rushingTDs
      Fumbles := fumbles
      FumblesLost := fumblesLost }, r10.2)

/-- Embedding of `runningBackGenerator.generate`. -/
def runningBackGenerate (draws : ℕ → ℚ) (player : Player) (yoe : ℤ)
    (i : ℕ) : FootballStats × ℕ :=
  let r1 := normalIntInRange draws 12 25 i
  let rushingAttempts := r1.1
  let r2 := normalIntInRange draws 4 6 r1.2
  let rushingAverage := r2.1
  let rushingYards := rushingAttempts * rushingAverage
  let r3 := normalIntInRange draws 0 2 r2.2
  let rushingTDs := r3.1
  let r4 := normalIntInRange draws 0 1 r3.2
  let fumbles := r4.1
  let r5 := normalIntInRange draws 0 fumbles r4.2
  let fumblesLost := r5.1
  let r6 := normalIntInRange draws 2 6 r5.2
  let receivingReceptions := r6.1
  let r7 := normalIntInRange draws 3 8 r6.2
  let receivingTargets := r7.1
  let r8 := normalIntInRange draws 6 12 r7.2
  let receivingAverage := r8.1
  let receivingYards := receivingReceptions * receivingAverage
  let r9 := normalIntInRange draws 0 1 r8.2
  let receivingTDs := r9.1
  ({ emptyFootballStats with
      RushingAttempts := rushingAttempts
      RushingYards := rushingYards
      RushingTDs := rushingTDs
      ReceivingReceptions := receivingReceptions
      ReceivingTDs := receivingTDs
      ReceivingTargets := receivingTargets
      ReceivingYards := receivingYards
      Fumbles := fumbles
      FumblesLost := fumblesLost }, r9.2)

/-- Embedding of `wideReceiverGenerator.generate`. -/
def wideReceiverGenerate (draws : ℕ → ℚ) (player : Player) (yoe : ℤ)
    (i : ℕ) : FootballStats × ℕ :=
  let r1 := normalIntInRange draws 4 10 i
  let receivingReceptions := r1.1
  let r2 := normalIntInRange draws 6 14 r1.2
  let receivingTargets := r2.1
  let r3 := normalIntInRange draws 12 18 r2.2
  let receivingAverage := r3.1
  let receivingYards := receivingReceptions * receivingAverage
  let r4 := normalIntInRange draws 0 2 r3.2
  let rushingAttempts := r4.1
  let r5 := normalIntInRange draws 5 14 r4.2
  let rushingAverage := r5.1
  let rushingYards := rushingAttempts * rushingAverage
  let r6 := normalIntInRange draws 0 1 r5.2
  let rushingTDs := r6.1
  let r7 := normalIntInRange draws 0 2 r6.2
  let receivingTDs := r7.1
  let r8 := normalIntInRange draws 0 1 r7.2
  let fumbles := r8.1
  let r9 := normalIntInRange draws 0 fumbles r8.2
  let fumblesLost := r9.1
  ({ emptyFootballStats with
      RushingAttempts := rushingAttempts
      RushingYards := rushingYards
      RushingTDs := rushingTDs
      ReceivingReceptions := receivingReceptions
      ReceivingTDs := receivingTDs
      ReceivingTargets := receivingTargets
      ReceivingYards := receivingYards
      Fumbles := fumbles
      FumblesLost := fumblesLost }, r9.2)

/-- Embedding of `tightEndGenerator.generate`. -/
def tightEndGenerate (draws : ℕ → ℚ) (player : Player) (yoe : ℤ)
    (i : ℕ) : FootballStats × ℕ :=
  let r1 := normalIntInRange draws 3 8 i
  let receivingReceptions := r1.1
  let r2 := normalIntInRange draws 5 11 r1.2
  let receivingTargets := r2.1
  let r3 := normalIntInRange draws 10 14 r2.2
  let receivingAverage := r3.1
  let receivingYards := receivingReceptions * receivingAverage
  let r4 := normalIntInRange draws 0 1 r3.2
  let rushingAttempts := r4.1
  let r5 := normalIntInRange draws 4 10 r4.2
  let rushingAverage := r5.1
  let rushingYards := rushingAttempts * rushingAverage
  let r6 := normalIntInRange draws 0 1 r5.2
  let rushingTDs := r6.1
  let r7 := normalIntInRange draws 0 1 r6.2
  let receivingTDs := r7.1
  let r8 := normalIntInRange draws 0 1 r7.2
  let fumbles := r8.1
  let r9 := normalIntInRange draws 0 fumbles r8.2
  let fumblesLost := r9.1
  ({ emptyFootballStats with
      RushingAttempts := rushingAttempts
      RushingYards := rushingYards
      RushingTDs := rushingTDs
      ReceivingReceptions := receivingReceptions
      ReceivingTDs := receivingTDs
      ReceivingTargets := receivingTargets
      ReceivingYards := receivingYards
      Fumbles := fumbles
      FumblesLost := fumblesLost }, r9.2)

/-- Embedding of `kickerGenerator.generate`. -/
def kickerGenerate (draws : ℕ → ℚ) (player : Player) (yoe : ℤ)
    (i : ℕ) : FootballStats × ℕ :=
  let r1 := normalIntInRange draws 0 50 i
  let fieldGoals := r1.1
  let r2 := normalIntInRange draws 0 fieldGoals r1.2
  let fieldGoalsMade := r2.1
  let fieldGoalsMissed := fieldGoals - fieldGoalsMade
  let r3 := normalIntInRange draws 0 5 r2.2
  let fieldGoalsBlocked := r3.1
  let r4 := normalIntInRange draws 0 fieldGoalsBlocked r3.2
  let fieldGoalsBlockedMade := r4.1
  let r5 := normalIntInRange draws 0 2 r4.2
  let extraPoints := r5.1
  let r6 := normalIntInRange draws 0 extraPoints r5.2
  let extraPointsMade := r6.1
  let extraPointsMissed := extraPoints - extraPointsMade
  ({ emptyFootballStats with
      FieldGoals := fieldGoals
      FieldGoalsMade := fieldGoalsMade
      FieldGoalsMissed := fieldGoalsMissed
      FieldGoalsBlocked := fieldGoalsBlocked
      FieldGoalsBlockedMade := fieldGoalsBlockedMade
      ExtraPoints := extraPoints
      ExtraPointsMade := extraPointsMade
      ExtraPointsMissed := extraPointsMissed }, r6.2)

/-- Embedding of `generatePlayerGameStats`: dispatch on the position code,
with the explicit all-zero fallback for unrecognized positions. -/
def generatePlayerGameStats (draws : ℕ → ℚ) (player : Player) (yoe : ℤ)
    (i : ℕ) : FootballStats × ℕ :=
  if player.Position = "QB" then quarterBackGenerate draws player yoe i
  else if player.Position = "RB" then runningBackGenerate draws player yoe i
  else if player.Position = "WR" then wideReceiverGenerate draws player yoe i
  else if player.Position = "TE" then tightEndGenerate draws player yoe i
  else if player.Position = "PK" then kickerGenerate draws player yoe i
  else (emptyFootballStats, i)

/-- Embedding of `multiplyStatByPlayerSkill`:
`int(float64(stat) * (1 + float64(yearsOfExperience)/100) * player.Skill)`. -/
def multiplyStatByPlayerSkill (player : Player) (yearsOfExperience : ℤ)
    (stat : ℤ) : ℤ :=
  goTrunc ((stat : ℚ) * (1 + (yearsOfExperience : ℚ) / 100) * player.Skill)

/-- Embedding of `multiplyYearlyStatsByPlayerSkill`: the skill adjustment
applied independently to every one of the 22 fields. -/
def multiplyYearlyStatsByPlayerSkill (player : Player) (yearsofExperience : ℤ)
    (stats : FootballStats) : FootballStats :=
  { PassingAttempts := multiplyStatByPlayerSkill player yearsofExperience stats.PassingAttempts
    PassingCompletions := multiplyStatByPlayerSkill player yearsofExperience stats.PassingCompletions
    PassingInterceptions := multiplyStatByPlayerSkill player yearsofExperience stats.PassingInterceptions
    PassingTDs := multiplyStatByPlayerSkill player yearsofExperience stats.PassingTDs
    PassingYards := multiplyStatByPlayerSkill player yearsofExperience stats.PassingYards
    RushingAttempts := multiplyStatByPlayerSkill player yearsofExperience stats.RushingAttempts
    RushingYards := multiplyStatByPlayerSkill player yearsofExperience stats.RushingYards
    ReceivingYards := multiplyStatByPlayerSkill player yearsofExperience stats.ReceivingYards
    RushingTDs := multiplyStatByPlayerSkill player yearsofExperience stats.RushingTDs
    ReceivingReceptions := multiplyStatByPlayerSkill player yearsofExperience stats.ReceivingReceptions
    ReceivingTDs := multiplyStatByPlayerSkill player yearsofExperience stats.ReceivingTDs
    ReceivingTargets := multiplyStatByPlayerSkill player yearsofExperience stats.ReceivingTargets
    Fumbles := multiplyStatByPlayerSkill player yearsofExperience stats.Fumbles
    FumblesLost := multiplyStatByPlayerSkill player yearsofExperience stats.FumblesLost
    FieldGoals := multiplyStatByPlayerSkill player yearsofExperience stats.FieldGoals
    FieldGoalsMade := multiplyStatByPlayerSkill player yearsofExperience stats.FieldGoalsMade
    FieldGoalsMissed := multiplyStatByPlayerSkill player yearsofExperience stats.FieldGoalsMissed
    FieldGoalsBlocked := multiplyStatByPlayerSkill player yearsofExperience stats.FieldGoalsBlocked
    FieldGoalsBlockedMade := multiplyStatByPlayerSkill player yearsofExperience stats.FieldGoalsBlockedMade
    ExtraPoints := multiplyStatByPlayerSkill player yearsofExperience stats.ExtraPoints
    ExtraPointsMade := multiplyStatByPlayerSkill player yearsofExperience stats.ExtraPointsMade
    ExtraPointsMissed := multiplyStatByPlayerSkill player yearsofExperience stats.ExtraPointsMissed }

/-- The production defaults applied by `NewCareerSimulator` to an empty
config: 18 games, `rollForInjury`, `generatePlayerGameStats`,
`multiplyYearlyStatsByPlayerSkill`, all fed by one shared random stream. -/
def defaultSimConfig (draws : ℕ → ℚ) : SimConfig ℕ :=
  { gamesPerSeason := 18
    injuryRoller := rollForInjury draws
    statsGenerator := generatePlayerGameStats draws
    statMultiplier := multiplyYearlyStatsByPlayerSkill }

/-- Embedding of `createRandomSkillFactorWithBellCurve`:
`rand.NormFloat64()*0.2 + 0.5`, with the normal draw explicit (the source
comment promises a value between 0.0 and 1.0, but the draw is unclamped). -/
def createRandomSkillFactorWithBellCurve (draw : ℚ) : ℚ :=
  draw * (2/10) + 5/10

/-- Embedding of the Go struct `StatisticToCDF` at key type `ℤ` (the
attribute tables are integer-keyed; probabilities are `float64`, embedded
as `ℚ`). -/
structure StatisticToCDF where
  Values : List ℤ
  CDF : List ℚ
deriving DecidableEq

/-- A Go map `map[T]int` is embedded as an association list of
key-count pairs (with distinct keys).  `totalCount` is the `total`
accumulated in the first loop of `createCDFForStat`. -/
def totalCount (stats : List (ℤ × ℤ)) : ℤ :=
  (stats.map Prod.snd).sum

/-- The Go map read `stats[k]` used in the second loop of
`createCDFForStat`. -/
def lookupCount (stats : List (ℤ × ℤ)) (k : ℤ) : ℤ :=
  (stats.lookup k).getD 0

/-- The key slice of `createCDFForStat` after `slices.Sort`. -/
def sortedKeys (stats : List (ℤ × ℤ)) : List ℤ :=
  (stats.map Prod.fst).insertionSort (· ≤ ·)

/-- The second loop of `createCDFForStat`: running sum of counts over the
sorted keys, each divided by the total.  (In `ℚ`, division by a zero total
yields `0`; in Go the same division yields a NaN float — in both models the
loop itself never fails.) -/
def cdfOfKeys (stats : List (ℤ × ℤ)) (total : ℤ) :
    List ℤ → ℤ → List ℚ
  | [], _ => []
  | k :: ks, runningSum =>
    let runningSum := runningSum + lookupCount stats k
    ((runningSum : ℚ) / (total : ℚ)) :: cdfOfKeys stats total ks runningSum

/-- Embedding of `createCDFForStat`: sort the keys, compute the cumulative
sums divided by the total count.  The function is total — the source
performs no zero-total or emptiness check and cannot return an error. -/
def createCDFForStat (stats : List (ℤ × ℤ)) : StatisticToCDF :=
  let keys := sortedKeys stats
  let total := totalCount stats
  ⟨keys, cdfOfKeys stats total keys 0⟩

/-- Fuel-indexed embedding of the recursive `binarySearchUpperBound`; the
fuel is an upper bound on `right - left`, which strictly decreases at every
recursive call of the source, so with fuel `right - left` the unfolding is
exactly the source recursion.  Out-of-range CDF reads (which would panic in
Go) are modelled by `getD` with default `0`. -/
def bsearchGo (cdf : List ℚ) (target : ℚ) : ℕ → ℕ → ℕ → ℕ
  | 0, leftIdx, _ => leftIdx
  | fuel + 1, leftIdx, rightIdx =>
    if leftIdx = rightIdx then leftIdx
    else
      let midIndex := (leftIdx + rightIdx) / 2
      if cdf.getD midIndex 0 < target then
        bsearchGo cdf target fuel (midIndex + 1) rightIdx
      else
        bsearchGo cdf target fuel leftIdx midIndex

/-- Embedding of `binarySearchUpperBound(cdf, left, right, target)`. -/
def binarySearchUpperBound (cdf : StatisticToCDF) (leftIdx rightIdx : ℕ)
    (target : ℚ) : ℕ :=
  bsearchGo cdf.CDF target (rightIdx - leftIdx) leftIdx rightIdx

/-- Embedding of `generateValueFromCDF`, with the uniform draw
`rand.Float64()` explicit. -/
def generateValueFromCDF (cdf : StatisticToCDF) (randomNumber : ℚ) : ℤ :=
  let index := binarySearchUpperBound cdf 0 (cdf.Values.length - 1) randomNumber
  cdf.Values.getD index 0

/-! ## Helper lemmas on the season loop -/

/-- Running `a + b` games is running `a` games and then `b` more. -/
lemma simGames_add {σ : Type} (cfg : SimConfig σ) (p : Player) (yoe : ℤ)
    (a b : ℕ) (st : SimState σ) :
    simGames cfg p yoe (a + b) st = simGames cfg p yoe b (simGames cfg p yoe a st) := by
  induction a generalizing st with
  | zero => simp [simGames]
  | succ n ih =>
    have h : n + 1 + b = (n + b) + 1 := by omega
    rw [h]
    simp only [simGames]
    exact ih _

/-- A healthy game whose injury roll comes back false stays healthy, keeps
the countdown, accumulates the adjusted generated stats, and advances the
random state by one roll and one generation. -/
lemma simStep_roller_false {σ : Type} (cfg : SimConfig σ) (p : Player) (yoe : ℤ)
    (st : SimState σ) (h : st.isInjured = false)
    (hR : ((cfg.injuryRoller p.Age p.Position st.rng).1).1 = false) :
    (simStep cfg p yoe st).isInjured = false
    ∧ (simStep cfg p yoe st).injuryGameCount = st.injuryGameCount
    ∧ (simStep cfg p yoe st).yearlyStats
        = accumulateGame st.yearlyStats
            (cfg.statMultiplier p yoe
              ((cfg.statsGenerator p yoe (cfg.injuryRoller p.Age p.Position st.rng).2).1))
    ∧ (simStep cfg p yoe st).rng
        = (cfg.statsGenerator p yoe (cfg.injuryRoller p.Age p.Position st.rng).2).2 := by
  simp [simStep, h, hR]

/-- The `n`-fold accumulation of a fixed per-game stat line. -/
def addNG (G : FootballStats) : ℕ → FootballStats → FootballStats
  | 0, acc => acc
  | n + 1, acc => addNG G n (accumulateGame acc G)

/-- Closed form of `addNG`: each of the 14 accumulated fields gains
`n` times the per-game value, the 8 kicking fields are untouched. -/
lemma addNG_spec (G : FootballStats) : ∀ (n : ℕ) (acc : FootballStats),
    addNG G n acc =
      { acc with
        PassingAttempts := acc.PassingAttempts + n * G.PassingAttempts
        PassingCompletions := acc.PassingCompletions + n * G.PassingCompletions
        PassingInterceptions := acc.PassingInterceptions + n * G.PassingInterceptions
        PassingTDs := acc.PassingTDs + n * G.PassingTDs
        PassingYards := acc.PassingYards + n * G.PassingYards
        RushingAttempts := acc.RushingAttempts + n * G.RushingAttempts
        RushingYards := acc.RushingYards + n * G.RushingYards
        ReceivingYards := acc.ReceivingYards + n * G.ReceivingYards
        RushingTDs := acc.RushingTDs + n * G.RushingTDs
        ReceivingReceptions := acc.ReceivingReceptions + n * G.ReceivingReceptions
        ReceivingTDs := acc.ReceivingTDs + n * G.ReceivingTDs
        ReceivingTargets := acc.ReceivingTargets + n * G.ReceivingTargets
        Fumbles := acc.Fumbles + n * G.Fumbles
        FumblesLost := acc.FumblesLost + n * G.FumblesLost } := by
  intro n
  induction n with
  | zero => intro acc; simp [addNG]
  | succ m ih =>
    intro acc
    simp only [addNG, ih (accumulateGame acc G)]
    cases acc
    simp only [accumulateGame, FootballStats.mk.injEq]
    push_cast
    repeat' constructor
    all_goals ring

/-- Under a roller that never reports an injury and a stats generator with a
fixed output `G`, every game is healthy and the accumulator gains the
adjusted per-game line each game. -/
lemma simGames_stub {σ : Type} (cfg : SimConfig σ) (p : Player) (yoe : ℤ)
    (G : FootballStats)
    (hR : ∀ s, ((cfg.injuryRoller p.Age p.Position s).1).1 = false)
    (hG : ∀ s, (cfg.statsGenerator p yoe s).1 = G) :
    ∀ (n : ℕ) (st : SimState σ), st.isInjured = false →
      (simGames cfg p yoe n st).isInjured = false
      ∧ (simGames cfg p yoe n st).yearlyStats
          = addNG (cfg.statMultiplier p yoe G) n st.yearlyStats := by
  intro n
  induction n with
  | zero => intro st h; exact ⟨h, rfl⟩
  | succ m ih =>
    intro st h
    have hs := simStep_roller_false cfg p yoe st h (hR _)
    have hnext := ih (simStep cfg p yoe st) hs.1
    refine ⟨hnext.1, ?_⟩
    simp only [simGames]
    rw [hnext.2, hs.2.2.1, hG]
    rfl

/-- The kicking fields of the running accumulator are never modified by a
single loop iteration. -/
lemma simStep_kicking {σ : Type} (cfg : SimConfig σ) (p : Player) (yoe : ℤ)
    (st : SimState σ) :
    (simStep cfg p yoe st).yearlyStats.FieldGoals = st.yearlyStats.FieldGoals
    ∧ (simStep cfg p yoe st).yearlyStats.FieldGoalsMade = st.yearlyStats.FieldGoalsMade
    ∧ (simStep cfg p yoe st).yearlyStats.FieldGoalsMissed = st.yearlyStats.FieldGoalsMissed
    ∧ (simStep cfg p yoe st).yearlyStats.FieldGoalsBlocked = st.yearlyStats.FieldGoalsBlocked
    ∧ (simStep cfg p yoe st).yearlyStats.FieldGoalsBlockedMade = st.yearlyStats.FieldGoalsBlockedMade
    ∧ (simStep cfg p yoe st).yearlyStats.ExtraPoints = st.yearlyStats.ExtraPoints
    ∧ (simStep cfg p yoe st).yearlyStats.ExtraPointsMade = st.yearlyStats.ExtraPointsMade
    ∧ (simStep cfg p yoe st).yearlyStats.ExtraPointsMissed = st.yearlyStats.ExtraPointsMissed := by
  rcases st with ⟨inj, c, ys, s⟩
  cases inj <;> simp [simStep, accumulateGame, apply_ite]

/-- The kicking fields of the accumulator survive any number of games
unchanged. -/
lemma simGames_kicking {σ : Type} (cfg : SimConfig σ) (p : Player) (yoe : ℤ) :
    ∀ (n : ℕ) (st : SimState σ),
    (simGames cfg p yoe n st).yearlyStats.FieldGoals = st.yearlyStats.FieldGoals
    ∧ (simGames cfg p yoe n st).yearlyStats.FieldGoalsMade = st.yearlyStats.FieldGoalsMade
    ∧ (simGames cfg p yoe n st).yearlyStats.FieldGoalsMissed = st.yearlyStats.FieldGoalsMissed
    ∧ (simGames cfg p yoe n st).yearlyStats.FieldGoalsBlocked = st.yearlyStats.FieldGoalsBlocked
    ∧ (simGames cfg p yoe n st).yearlyStats.FieldGoalsBlockedMade = st.yearlyStats.FieldGoalsBlockedMade
    ∧ (simGames cfg p yoe n st).yearlyStats.ExtraPoints = st.yearlyStats.ExtraPoints
    ∧ (simGames cfg p yoe n st).yearlyStats.ExtraPointsMade = st.yearlyStats.ExtraPointsMade
    ∧ (simGames cfg p yoe n st).yearlyStats.ExtraPointsMissed = st.yearlyStats.ExtraPointsMissed := by
  intro n
  induction n with
  | zero => intro st; exact ⟨rfl, rfl, rfl, rfl, rfl, rfl, rfl, rfl⟩
  | succ m ih =>
    intro st
    have hs := simStep_kicking cfg p yoe st
    have hnext := ih (simStep cfg p yoe st)
    simp only [simGames]
    exact ⟨hnext.1.trans hs.1, hnext.2.1.trans hs.2.1, hnext.2.2.1.trans hs.2.2.1,
      hnext.2.2.2.1.trans hs.2.2.2.1, hnext.2.2.2.2.1.trans hs.2.2.2.2.1,
      hnext.2.2.2.2.2.1.trans hs.2.2.2.2.2.1, hnext.2.2.2.2.2.2.1.trans hs.2.2.2.2.2.2.1,
      hnext.2.2.2.2.2.2.2.trans hs.2.2.2.2.2.2.2⟩

/-! ## Concrete fixtures for counterexamples and witnesses -/

/-- A `CareerSimulator` configuration with all dependencies stubbed: the
roller never triggers, the generator returns the fixed line `G`, and the
multiplier is the identity (the stubs of the repository's own tests). -/
def constStubConfig (G : FootballStats) : SimConfig Unit :=
  { gamesPerSeason := 18
    injuryRoller := fun _ _ s => ((false, 0), s)
    statsGenerator := fun _ _ s => (G, s)
    statMultiplier := fun _ _ stats => stats }

/-- A per-game stat line with one field goal and nothing else. -/
def fgOneStats : FootballStats := { emptyFootballStats with FieldGoals := 1 }

/-- A concrete player fixture. -/
def testPlayer : Player :=
  ⟨"player-1", "Alex", "Doe", "PK", "team-1", 72, 200, 27, 5, 2020, 1, "Active", 3⟩

/-- C1 (counterexample): with the injury roller stubbed to never trigger,
the stat generator stubbed to the constant line `fgOneStats` (one field goal
per game) and the multiplier stubbed to the identity, the 18-game season
total has `FieldGoals = 0`, not `18 × 1`: the accumulation loop never adds
the kicking fields, so the claim fails on them. -/
theorem simulateYear_all22_times18_counterexample :
    ((SimulateYear (constStubConfig fgOneStats) testPlayer 2025 ()).1).Total.FieldGoals
      ≠ 18 * fgOneStats.FieldGoals := by
  decide

/-- C1 (amended): with an injury roller stubbed to never trigger and a stat
generator/multiplier stubbed to identity over the default 18-game season,
`SimulateYear` returns per-game × 18 on the 14 accumulated
passing/rushing/receiving/fumble fields, while the 8 kicking fields of the
total are 0 regardless of the per-game line. -/
theorem simulateYear_stubbed_totals (σ : Type) (cfg : SimConfig σ) (p : Player)
    (year : ℤ) (s0 : σ) (G : FootballStats)
    (hR : ∀ a pos s, ((cfg.injuryRoller a pos s).1).1 = false)
    (hG : ∀ q y s, (cfg.statsGenerator q y s).1 = G)
    (hM : ∀ q y t, cfg.statMultiplier q y t = t)
    (hGames : cfg.gamesPerSeason = 18) :
    ((SimulateYear cfg p year s0).1).Total =
      { emptyFootballStats with
        PassingAttempts := 18 * G.PassingAttempts
        PassingCompletions := 18 * G.PassingCompletions
        PassingInterceptions := 18 * G.PassingInterceptions
        PassingTDs := 18 * G.PassingTDs
        PassingYards := 18 * G.PassingYards
        RushingAttempts := 18 * G.RushingAttempts
        RushingYards := 18 * G.RushingYards
        ReceivingYards := 18 * G.ReceivingYards
        RushingTDs := 18 * G.RushingTDs
        ReceivingReceptions := 18 * G.ReceivingReceptions
        ReceivingTDs := 18 * G.ReceivingTDs
        ReceivingTargets := 18 * G.ReceivingTargets
        Fumbles := 18 * G.Fumbles
        FumblesLost := 18 * G.FumblesLost } := by
  have h := (simGames_stub cfg p (playerYearsOfExperience p year) G
    (fun s => hR _ _ s) (fun s => hG _ _ s) 18
    ⟨false, 0, emptyFootballStats, s0⟩ rfl).2
  simp only [SimulateYear, hGames]
  rw [h, hM, addNG_spec]
  simp [emptyFootballStats]

/-- C1 (witness): the amended theorem applied to the concrete stub
configuration with one field goal per game. -/
theorem simulateYear_stubbed_totals_witness :
    ((SimulateYear (constStubConfig fgOneStats) testPlayer 2025 ()).1).Total =
      { emptyFootballStats with
        PassingAttempts := 18 * fgOneStats.PassingAttempts
        PassingCompletions := 18 * fgOneStats.PassingCompletions
        PassingInterceptions := 18 * fgOneStats.PassingInterceptions
        PassingTDs := 18 * fgOneStats.PassingTDs
        PassingYards := 18 * fgOneStats.PassingYards
        RushingAttempts := 18 * fgOneStats.RushingAttempts
        RushingYards := 18 * fgOneStats.RushingYards
        ReceivingYards := 18 * fgOneStats.ReceivingYards
        RushingTDs := 18 * fgOneStats.RushingTDs
        ReceivingReceptions := 18 * fgOneStats.ReceivingReceptions
        ReceivingTDs := 18 * fgOneStats.ReceivingTDs
        ReceivingTargets := 18 * fgOneStats.ReceivingTargets
        Fumbles := 18 * fgOneStats.Fumbles
        FumblesLost := 18 * fgOneStats.FumblesLost } :=
  simulateYear_stubbed_totals Unit (constStubConfig fgOneStats) testPlayer 2025 ()
    fgOneStats (fun _ _ _ => rfl) (fun _ _ _ => rfl) (fun _ _ _ => rfl) rfl

/-- C2: for every configuration (hence every games-per-season value, every
roller/generator/multiplier behaviour, and every random state — in
particular the kicker pipeline for a PK player), the season total returned
by `SimulateYear` has all 8 kicking fields equal to zero, because the
accumulation loop only sums the 14 passing/rushing/receiving/fumble fields;
meanwhile the kicker game-stat generator itself does produce a non-zero
`FieldGoals` value (29 on an all-midpoint draw stream). -/
theorem simulateYear_kicking_fields_zero :
    (∀ (σ : Type) (cfg : SimConfig σ) (p : Player) (year : ℤ) (s0 : σ),
        ((SimulateYear cfg p year s0).1).Total.FieldGoals = 0
        ∧ ((SimulateYear cfg p year s0).1).Total.FieldGoalsMade = 0
        ∧ ((SimulateYear cfg p year s0).1).Total.FieldGoalsMissed = 0
        ∧ ((SimulateYear cfg p year s0).1).Total.FieldGoalsBlocked = 0
        ∧ ((SimulateYear cfg p year s0).1).Total.FieldGoalsBlockedMade = 0
        ∧ ((SimulateYear cfg p year s0).1).Total.ExtraPoints = 0
        ∧ ((SimulateYear cfg p year s0).1).Total.ExtraPointsMade = 0
        ∧ ((SimulateYear cfg p year s0).1).Total.ExtraPointsMissed = 0)
    ∧ 0 < ((kickerGenerate (fun _ => 1/2) testPlayer 0 0).1).FieldGoals := by
  constructor
  · intro σ cfg p year s0
    have h := simGames_kicking cfg p (playerYearsOfExperience p year)
      cfg.gamesPerSeason ⟨false, 0, emptyFootballStats, s0⟩
    simpa [SimulateYear, emptyFootballStats] using h
  · norm_num [kickerGenerate, normalIntInRange, normalInRange, goTrunc,
      emptyFootballStats]

/-- The years of the seasons produced by the career loop are
`y, y + 1, …, y + n − 1`. -/
lemma careerLoop_years {σ : Type} (cfg : SimConfig σ) (p : Player) :
    ∀ (n : ℕ) (y : ℤ) (s : σ),
      ((careerLoop cfg p n y s).1).map PlayerYearlyStatsFootball.Year
        = (List.range n).map (fun k : ℕ => y + (k : ℤ)) := by
  intro n
  induction n with
  | zero => intro y s; simp [careerLoop]
  | succ m ih =>
    intro y s
    simp only [careerLoop, List.map_cons]
    rw [ih]
    rw [List.range_succ_eq_map]
    simp only [List.map_cons, List.map_map, CreateYear, List.cons.injEq]
    refine ⟨by simp, List.map_congr_left ?_⟩
    intro a _
    simp only [Function.comp]
    push_cast
    ring

/-- A second concrete player fixture, drafted in 2020. -/
def careerPlayer : Player :=
  ⟨"player-2", "Sam", "Roe", "QB", "team-1", 75, 210, 27, 5, 2020, 1, "Active", 12⟩

/-- C3 (counterexample): for a player drafted in 2020 simulated with current
year 2023 (draft year strictly before current year), `CreateCareer` returns
seasons for 2020, 2021 and 2022 only — no season for the current year 2023
exists, contradicting "for each year from the draft year to the current
year inclusive". -/
theorem createCareer_missing_current_year_counterexample :
    careerPlayer.DraftYear < 2023
    ∧ ((CreateCareer (constStubConfig fgOneStats) careerPlayer 2023 ()).1).map
        PlayerYearlyStatsFootball.Year = [2020, 2021, 2022]
    ∧ ¬ ((2023 : ℤ) ∈ ((CreateCareer (constStubConfig fgOneStats) careerPlayer 2023 ()).1).map
        PlayerYearlyStatsFootball.Year) := by
  exact ⟨by decide, by decide, by decide⟩

/-- C3 (amended): for every player whose draft year is strictly before the
current year, `CreateCareer` returns exactly `currentYear − draftYear`
seasons, one per year from the draft year up to but excluding the current
year, with strictly increasing contiguous years starting at the draft
year. -/
theorem createCareer_years_contiguous (σ : Type) (cfg : SimConfig σ) (p : Player)
    (currentYear : ℤ) (s : σ) (h : p.DraftYear < currentYear) :
    ((CreateCareer cfg p currentYear s).1).length = (currentYear - p.DraftYear).toNat
    ∧ ((CreateCareer cfg p currentYear s).1).map PlayerYearlyStatsFootball.Year
        = (List.range (currentYear - p.DraftYear).toNat).map
            (fun k : ℕ => p.DraftYear + (k : ℤ)) := by
  have hne : ¬ (p.DraftYear = currentYear) := by omega
  have hy := careerLoop_years cfg p (currentYear - p.DraftYear).toNat p.DraftYear s
  constructor
  · have hl := congrArg List.length hy
    simpa [CreateCareer, hne] using hl
  · simpa [CreateCareer, hne] using hy

/-- C3 (witness): the amended theorem at the 2020-draft player with current
year 2023. -/
theorem createCareer_years_contiguous_witness :
    ((CreateCareer (constStubConfig fgOneStats) careerPlayer 2023 ()).1).length
        = ((2023 : ℤ) - careerPlayer.DraftYear).toNat
    ∧ ((CreateCareer (constStubConfig fgOneStats) careerPlayer 2023 ()).1).map
        PlayerYearlyStatsFootball.Year
        = (List.range ((2023 : ℤ) - careerPlayer.DraftYear).toNat).map
            (fun k : ℕ => careerPlayer.DraftYear + (k : ℤ)) :=
  createCareer_years_contiguous Unit (constStubConfig fgOneStats) careerPlayer 2023 ()
    (by decide)

/-- C6: `SimulateYear player year` computes the experience argument
`playerYearsOfExperience = player.DraftYear − year` and hands it to the
stats generator and the stat multiplier (first conjunct, the definitional
unfolding of the loop); for a simulated year at or after the draft year the
argument is ≤ 0 and the experience factor `1 + yoe/100` is ≤ 1; the factor
strictly decreases for later seasons of the same career; and
`multiplyStatByPlayerSkill` applies exactly this factor. -/
theorem simulateYear_experience_argument (σ : Type) (cfg : SimConfig σ)
    (p : Player) (year : ℤ) (s0 : σ) (h : p.DraftYear ≤ year) :
    SimulateYear cfg p year s0
      = (⟨(simGames cfg p (playerYearsOfExperience p year) cfg.gamesPerSeason
            ⟨false, 0, emptyFootballStats, s0⟩).yearlyStats⟩,
         (simGames cfg p (playerYearsOfExperience p year) cfg.gamesPerSeason
            ⟨false, 0, emptyFootballStats, s0⟩).rng)
    ∧ playerYearsOfExperience p year = p.DraftYear - year
    ∧ playerYearsOfExperience p year ≤ 0
    ∧ (1 + (playerYearsOfExperience p year : ℚ) / 100) ≤ 1
    ∧ (∀ y2 : ℤ, year < y2 →
        (1 + (playerYearsOfExperience p y2 : ℚ) / 100)
          < (1 + (playerYearsOfExperience p year : ℚ) / 100))
    ∧ (∀ (q : Player) (yoe stat : ℤ),
        multiplyStatByPlayerSkill q yoe stat
          = goTrunc ((stat : ℚ) * (1 + (yoe : ℚ) / 100) * q.Skill)) := by
  have hle : playerYearsOfExperience p year ≤ 0 := by
    simp only [playerYearsOfExperience]; omega
  have hleQ : ((playerYearsOfExperience p year : ℤ) : ℚ) ≤ 0 := by exact_mod_cast hle
  refine ⟨rfl, rfl, hle, by linarith, ?_, fun q yoe stat => rfl⟩
  intro y2 hy
  have hlt : (playerYearsOfExperience p y2 : ℚ) < (playerYearsOfExperience p year : ℚ) := by
    have : playerYearsOfExperience p y2 < playerYearsOfExperience p year := by
      simp only [playerYearsOfExperience]; omega
    exact_mod_cast this
  linarith

/-- C6 (witness): the experience-argument theorem at a concrete player and
year. -/
theorem simulateYear_experience_argument_witness :
    SimulateYear (constStubConfig fgOneStats) careerPlayer 2025 ()
      = (⟨(simGames (constStubConfig fgOneStats) careerPlayer
            (playerYearsOfExperience careerPlayer 2025)
            (constStubConfig fgOneStats).gamesPerSeason
            ⟨false, 0, emptyFootballStats, ()⟩).yearlyStats⟩,
         (simGames (constStubConfig fgOneStats) careerPlayer
            (playerYearsOfExperience careerPlayer 2025)
            (constStubConfig fgOneStats).gamesPerSeason
            ⟨false, 0, emptyFootballStats, ()⟩).rng)
    ∧ playerYearsOfExperience careerPlayer 2025 = careerPlayer.DraftYear - 2025
    ∧ playerYearsOfExperience careerPlayer 2025 ≤ 0
    ∧ (1 + (playerYearsOfExperience careerPlayer 2025 : ℚ) / 100) ≤ 1
    ∧ (∀ y2 : ℤ, 2025 < y2 →
        (1 + (playerYearsOfExperience careerPlayer y2 : ℚ) / 100)
          < (1 + (playerYearsOfExperience careerPlayer 2025 : ℚ) / 100))
    ∧ (∀ (q : Player) (yoe stat : ℤ),
        multiplyStatByPlayerSkill q yoe stat
          = goTrunc ((stat : ℚ) * (1 + (yoe : ℚ) / 100) * q.Skill)) :=
  simulateYear_experience_argument Unit (constStubConfig fgOneStats) careerPlayer
    2025 () (by decide)

/-- An instrumented simulator configuration over the state
`(roller calls made, generator calls made)`: the k-th roller call returns
`out k`, the m-th generator call returns `genOut m`.  This captures every
injury-roller behaviour as its observable sequence of return values while
counting how often the stat-generation step runs. -/
def instrConfig (out : ℕ → Bool × ℤ) (genOut : ℕ → FootballStats)
    (mult : Player → ℤ → FootballStats → FootballStats) : SimConfig (ℕ × ℕ) :=
  { gamesPerSeason := 18
    injuryRoller := fun _ _ s => (out s.1, (s.1 + 1, s.2))
    statsGenerator := fun _ _ s => (genOut s.2, (s.1, s.2 + 1))
    statMultiplier := mult }

/-- A healthy stretch of `n` games whose rolls all come back false: the
player stays healthy and both call counters advance by `n`. -/
lemma instr_healthy_run (out : ℕ → Bool × ℤ) (genOut : ℕ → FootballStats)
    (mult : Player → ℤ → FootballStats → FootballStats) (p : Player) (yoe : ℤ) :
    ∀ (n : ℕ) (st : SimState (ℕ × ℕ)), st.isInjured = false →
      (∀ k, st.rng.1 ≤ k → k < st.rng.1 + n → (out k).1 = false) →
      (simGames (instrConfig out genOut mult) p yoe n st).isInjured = false
      ∧ (simGames (instrConfig out genOut mult) p yoe n st).injuryGameCount
          = st.injuryGameCount
      ∧ (simGames (instrConfig out genOut mult) p yoe n st).rng
          = (st.rng.1 + n, st.rng.2 + n) := by
  intro n
  induction n with
  | zero => intro st h _; exact ⟨h, rfl, by simp [simGames]⟩
  | succ m ih =>
    intro st h hwin
    have hfalse : (((instrConfig out genOut mult).injuryRoller p.Age p.Position st.rng).1).1
        = false := by
      simpa [instrConfig] using hwin st.rng.1 le_rfl (by omega)
    have hs := simStep_roller_false (instrConfig out genOut mult) p yoe st h hfalse
    have hrng : (simStep (instrConfig out genOut mult) p yoe st).rng
        = (st.rng.1 + 1, st.rng.2 + 1) := by
      rw [hs.2.2.2]; simp [instrConfig]
    have hnext := ih (simStep (instrConfig out genOut mult) p yoe st) hs.1 ?window
    case window =>
      intro k hk1 hk2
      rw [hrng] at hk1 hk2
      exact hwin k (by simp at hk1; omega) (by simp at hk2; omega)
    simp only [simGames]
    refine ⟨hnext.1, hnext.2.1.trans hs.2.1, ?_⟩
    rw [hnext.2.2, hrng]
    simp only [Prod.mk.injEq]
    omega

/-- An injured player with a countdown of `g ≥ 1` sits out exactly `g`
games: afterwards the player is healthy, the countdown is 0, and neither
the accumulator nor the random state moved. -/
lemma injured_run {σ : Type} (cfg : SimConfig σ) (p : Player) (yoe : ℤ) :
    ∀ (g : ℕ), 1 ≤ g → ∀ st : SimState σ, st.isInjured = true →
      st.injuryGameCount = (g : ℤ) →
      simGames cfg p yoe g st = ⟨false, 0, st.yearlyStats, st.rng⟩ := by
  intro g
  induction g with
  | zero => intro h; omega
  | succ m ih =>
    intro _ st hinj hcount
    by_cases hm : m = 0
    · subst hm
      simp only [simGames]
      have hstep : simStep cfg p yoe st
          = { st with isInjured := false, injuryGameCount := st.injuryGameCount - 1 } := by
        simp [simStep, hinj, hcount]
      rw [hstep]
      simp [hcount]
    · have hm1 : 1 ≤ m := by omega
      simp only [simGames]
      have hstep : simStep cfg p yoe st
          = { st with injuryGameCount := st.injuryGameCount - 1 } := by
        have : ¬ (st.injuryGameCount - 1 ≤ 0) := by rw [hcount]; push_cast; omega
        simp [simStep, hinj, this]
      rw [hstep]
      have := ih hm1 { st with injuryGameCount := st.injuryGameCount - 1 } hinj
        (by show st.injuryGameCount - 1 = (m : ℤ); rw [hcount]; push_cast; ring)
      simpa using this

/-- The game on which the injury roll triggers: the player transitions to
injured with the sampled countdown, but the generator is still called (the
generator counter advances). -/
lemma instr_trigger_step (out : ℕ → Bool × ℤ) (genOut : ℕ → FootballStats)
    (mult : Player → ℤ → FootballStats → FootballStats) (p : Player) (yoe : ℤ)
    (st : SimState (ℕ × ℕ)) (h : st.isInjured = false) (gz : ℤ)
    (htr : out st.rng.1 = (true, gz)) :
    (simStep (instrConfig out genOut mult) p yoe st).isInjured = true
    ∧ (simStep (instrConfig out genOut mult) p yoe st).injuryGameCount = gz
    ∧ (simStep (instrConfig out genOut mult) p yoe st).rng
        = (st.rng.1 + 1, st.rng.2 + 1) := by
  simp [simStep, instrConfig, htr, h]

/-- C7: in an 18-game season where the injury roller reports an injury
exactly on its i-th call — with `g ≥ 1` games missed and `i + g ≤ 18` — and
reports no injury on every other call, the stat-generation step runs in
exactly `18 − g` games; and after the first `i` games the generator has
already run `i` times, i.e. the triggering game i itself still executes the
stat-generation step. -/
theorem simulateYear_injury_skips_games (i g : ℕ) (out : ℕ → Bool × ℤ)
    (genOut : ℕ → FootballStats)
    (mult : Player → ℤ → FootballStats → FootballStats) (p : Player) (year : ℤ)
    (hi : 1 ≤ i) (hg : 1 ≤ g) (hig : i + g ≤ 18)
    (htrig : out (i - 1) = (true, (g : ℤ)))
    (hother : ∀ k, k ≠ i - 1 → (out k).1 = false) :
    (((SimulateYear (instrConfig out genOut mult) p year (0, 0)).2).2 = 18 - g)
    ∧ (((simGames (instrConfig out genOut mult) p (playerYearsOfExperience p year) i
          ⟨false, 0, emptyFootballStats, (0, 0)⟩).rng).2 = i) := by
  set cfg := instrConfig out genOut mult with hcfg
  set yoe := playerYearsOfExperience p year with hyoe
  set init : SimState (ℕ × ℕ) := ⟨false, 0, emptyFootballStats, (0, 0)⟩ with hinit
  -- the first i - 1 games are healthy
  have hA := instr_healthy_run out genOut mult p yoe (i - 1) init rfl ?w1
  case w1 =>
    intro k hk1 hk2
    refine hother k ?_
    simp only [hinit] at hk2
    omega
  set A := simGames cfg p yoe (i - 1) init with hA_def
  -- game i triggers the injury but still generates stats
  have htrigA : out A.rng.1 = (true, (g : ℤ)) := by
    rw [hA.2.2]
    simpa [hinit] using htrig
  have hB := instr_trigger_step out genOut mult p yoe A hA.1 (g : ℤ) htrigA
  set B := simStep cfg p yoe A with hB_def
  have hBrng : B.rng = (i, i) := by
    rw [hB.2.2, hA.2.2]
    simp only [hinit, Prod.mk.injEq]
    omega
  -- the next g games are sat out
  have hC := injured_run cfg p yoe g hg B hB.1 hB.2.1
  set C : SimState (ℕ × ℕ) := ⟨false, 0, B.yearlyStats, B.rng⟩ with hC_def
  -- the remaining games are healthy again
  have hD := instr_healthy_run out genOut mult p yoe (18 - i - g) C rfl ?w2
  case w2 =>
    intro k hk1 hk2
    refine hother k ?_
    simp only [hC_def, hBrng] at hk1
    omega
  -- assemble the full season
  have hsplit : (18 : ℕ) = (i - 1) + (1 + (g + (18 - i - g))) := by omega
  have hrun : simGames cfg p yoe 18 init
      = simGames cfg p yoe (18 - i - g) C := by
    conv_lhs => rw [hsplit]
    rw [simGames_add, simGames_add, simGames_add]
    have h1 : simGames cfg p yoe 1 A = B := rfl
    rw [← hA_def, h1, hC]
  constructor
  · show ((simGames cfg p yoe cfg.gamesPerSeason init).rng).2 = 18 - g
    have hgames : cfg.gamesPerSeason = 18 := rfl
    rw [hgames, hrun, hD.2.2]
    simp only [hC_def, hBrng]
    omega
  · have hsi : i = (i - 1) + 1 := by omega
    rw [hsi, simGames_add]
    rw [← hA_def]
    show ((simGames cfg p yoe 1 A).rng).2 = (i - 1) + 1
    have h1 : simGames cfg p yoe 1 A = B := rfl
    rw [h1, hB.2.2, hA.2.2]
    simp only [hinit]
    omega

/-- C7 (witness): the injury-count theorem with the injury triggering on
game 3 and 5 games missed: 13 of 18 games generate stats. -/
theorem simulateYear_injury_skips_games_witness :
    ((SimulateYear (instrConfig
        (fun k => (decide (k = 2), if k = 2 then (5 : ℤ) else 0))
        (fun _ => fgOneStats) (fun _ _ s => s)) testPlayer 2025 (0, 0)).2).2 = 18 - 5
    ∧ ((simGames (instrConfig
        (fun k => (decide (k = 2), if k = 2 then (5 : ℤ) else 0))
        (fun _ => fgOneStats) (fun _ _ s => s)) testPlayer
          (playerYearsOfExperience testPlayer 2025) 3
          ⟨false, 0, emptyFootballStats, (0, 0)⟩).rng).2 = 3 :=
  simulateYear_injury_skips_games 3 5
    (fun k => (decide (k = 2), if k = 2 then (5 : ℤ) else 0))
    (fun _ => fgOneStats) (fun _ _ s => s) testPlayer 2025
    (by decide) (by decide) (by decide) (by decide)
    (fun k hk => by simp [hk])

/-- Go's conversion of an integer-valued rational back to an int is exact. -/
lemma goTrunc_intCast (s : ℤ) : goTrunc (s : ℚ) = s := by
  unfold goTrunc
  split_ifs with h
  · rw [← Int.cast_neg, Int.floor_intCast]; ring
  · rw [Int.floor_intCast]

/-- A player fixture whose skill is the negative value −1/2. -/
def halfSkillNegPlayer : Player :=
  ⟨"player-3", "Kim", "Poe", "WR", "team-1", 73, 205, 26, 4, 2021, -1/2, "Active", 81⟩

/-- C10 (counterexample): with skill −1/2 (a value the unclamped bell-curve
skill generator can produce), zero experience and raw stat 1, the code
computes `int(1 × 1 × (−0.5))` which truncates toward zero to 0, whereas
the claimed floor semantics demand ⌊−0.5⌋ = −1. -/
theorem multiplyStat_floor_counterexample :
    multiplyStatByPlayerSkill halfSkillNegPlayer 0 1
      ≠ ⌊((1 : ℤ) : ℚ) * (1 + ((0 : ℤ) : ℚ) / 100) * halfSkillNegPlayer.Skill⌋ := by
  norm_num [multiplyStatByPlayerSkill, goTrunc, halfSkillNegPlayer]

/-- C10 (amended): every field of `multiplyYearlyStatsByPlayerSkill` is the
truncation toward zero (Go's `int(...)` conversion) of
`rawStat × (1 + yoe/100) × skill`, applied independently; truncation agrees
with floor on non-negative products; a raw stat of 0 always adjusts to 0;
and skill 1.0 with zero experience is the identity transform on every
field. -/
theorem multiplyStats_trunc_spec (p q : Player) (yoe : ℤ) (stats : FootballStats)
    (hq : q.Skill = 1) :
    (∀ s : ℤ, multiplyStatByPlayerSkill p yoe s
        = goTrunc ((s : ℚ) * (1 + (yoe : ℚ) / 100) * p.Skill))
    ∧ (∀ r : ℚ, 0 ≤ r → goTrunc r = ⌊r⌋)
    ∧ multiplyStatByPlayerSkill p yoe 0 = 0
    ∧ multiplyYearlyStatsByPlayerSkill p yoe emptyFootballStats = emptyFootballStats
    ∧ multiplyYearlyStatsByPlayerSkill q 0 stats = stats := by
  refine ⟨fun s => rfl, fun r h => by simp [goTrunc, not_lt.2 h], ?_, ?_, ?_⟩
  · simp [multiplyStatByPlayerSkill, goTrunc]
  · simp [multiplyYearlyStatsByPlayerSkill, multiplyStatByPlayerSkill,
      emptyFootballStats, goTrunc]
  · cases stats
    simp [multiplyYearlyStatsByPlayerSkill, multiplyStatByPlayerSkill, hq,
      goTrunc_intCast]

/-- C10 (witness): the truncation spec at a negative-skill player, a
skill-1 player, zero experience, and a concrete stat line. -/
theorem multiplyStats_trunc_spec_witness :
    (∀ s : ℤ, multiplyStatByPlayerSkill halfSkillNegPlayer 0 s
        = goTrunc ((s : ℚ) * (1 + ((0 : ℤ) : ℚ) / 100) * halfSkillNegPlayer.Skill))
    ∧ (∀ r : ℚ, 0 ≤ r → goTrunc r = ⌊r⌋)
    ∧ multiplyStatByPlayerSkill halfSkillNegPlayer 0 0 = 0
    ∧ multiplyYearlyStatsByPlayerSkill halfSkillNegPlayer 0 emptyFootballStats
        = emptyFootballStats
    ∧ multiplyYearlyStatsByPlayerSkill careerPlayer 0 fgOneStats = fgOneStats :=
  multiplyStats_trunc_spec halfSkillNegPlayer careerPlayer 0 fgOneStats
    (by norm_num [careerPlayer])

/-- The QB player fixture whose skill is the unclamped bell-curve output −1
(normal draw −7.5). -/
def bellCurvePlayer : Player :=
  ⟨"player-4", "Pat", "Moe", "QB", "team-1", 74, 220, 30, 5, 2020, -1, "Active", 12⟩

/-- The quarterback per-game stat line on the all-midpoint draw stream
(every normal draw equal to 1/2). -/
def qbMidpointStats : FootballStats :=
  ⟨36, 25, 1, 2, 275, 4, 22, 0, 0, 0, 0, 0, 0, 0, 0, 0, 0, 0, 0, 0, 0, 0⟩

/-- C5: the bell-curve skill generator is unclamped — at normal draw −7.5 it
returns the negative skill −1, contradicting its source comment "Return
value between 0.0 and 1.0" — and the default `SimulateYear` pipeline for a
QB carrying that skill returns a season stat line with
`PassingAttempts = −648 < 0` on the constant-1/2 draw stream, violating the
non-negativity of `SeasonStatLine`. -/
theorem simulateYear_negative_from_unclamped_skill :
    createRandomSkillFactorWithBellCurve (-15/2) = bellCurvePlayer.Skill
    ∧ bellCurvePlayer.Skill < 0
    ∧ ((SimulateYear (defaultSimConfig (fun _ => 1/2)) bellCurvePlayer 2020 0).1).Total.PassingAttempts
        = -648
    ∧ ((SimulateYear (defaultSimConfig (fun _ => 1/2)) bellCurvePlayer 2020 0).1).Total.PassingAttempts
        < 0 := by
  have hR : ∀ s : ℕ,
      (((defaultSimConfig (fun _ => 1/2)).injuryRoller
        bellCurvePlayer.Age bellCurvePlayer.Position s).1).1 = false := by
    intro s
    norm_num [defaultSimConfig, rollForInjury, bellCurvePlayer]
  have hG : ∀ s : ℕ,
      ((defaultSimConfig (fun _ => 1/2)).statsGenerator bellCurvePlayer
        (playerYearsOfExperience bellCurvePlayer 2020) s).1 = qbMidpointStats := by
    intro s
    norm_num [defaultSimConfig, generatePlayerGameStats, bellCurvePlayer,
      quarterBackGenerate, normalIntInRange, normalInRange, goTrunc,
      qbMidpointStats, emptyFootballStats]
  have hmain := (simGames_stub (defaultSimConfig (fun _ => 1/2)) bellCurvePlayer
    (playerYearsOfExperience bellCurvePlayer 2020) qbMidpointStats hR hG 18
    ⟨false, 0, emptyFootballStats, 0⟩ rfl).2
  have hmult : (defaultSimConfig (fun _ => 1/2)).statMultiplier bellCurvePlayer
      (playerYearsOfExperience bellCurvePlayer 2020) qbMidpointStats
      = ⟨-36, -25, -1, -2, -275, -4, -22, 0, 0, 0, 0, 0, 0, 0,
          0, 0, 0, 0, 0, 0, 0, 0⟩ := by
    norm_num [defaultSimConfig, multiplyYearlyStatsByPlayerSkill,
      multiplyStatByPlayerSkill, bellCurvePlayer, playerYearsOfExperience,
      goTrunc, qbMidpointStats]
  have htot : ((SimulateYear (defaultSimConfig (fun _ => 1/2)) bellCurvePlayer
      2020 0).1).Total.PassingAttempts = -648 := by
    show (simGames (defaultSimConfig (fun _ => 1/2)) bellCurvePlayer
      (playerYearsOfExperience bellCurvePlayer 2020)
      (defaultSimConfig (fun _ => 1/2)).gamesPerSeason
      ⟨false, 0, emptyFootballStats, 0⟩).yearlyStats.PassingAttempts = -648
    have hg18 : (defaultSimConfig (fun _ => (1 : ℚ)/2)).gamesPerSeason = 18 := rfl
    rw [hg18, hmain, hmult, addNG_spec]
    norm_num [emptyFootballStats]
  refine ⟨by norm_num [createRandomSkillFactorWithBellCurve, bellCurvePlayer],
    by norm_num [bellCurvePlayer], htot, by rw [htot]; norm_num⟩

/-! ## Helper lemmas on the CDF construction -/

/-- A Go map with non-negative counts yields non-negative lookups
(a missing key reads as the zero value). -/
lemma lookupCount_nonneg : ∀ (stats : List (ℤ × ℤ)),
    (∀ kv ∈ stats, 0 ≤ kv.2) → ∀ k, 0 ≤ lookupCount stats k := by
  intro stats
  induction stats with
  | nil => intro _ k; simp [lookupCount, List.lookup]
  | cons hd tl ih =>
    intro hnn k
    have hh : 0 ≤ hd.2 := hnn hd (List.mem_cons_self _ _)
    have ht : ∀ kv ∈ tl, 0 ≤ kv.2 := fun kv hkv => hnn kv (List.mem_cons_of_mem _ hkv)
    rcases hd with ⟨a, b⟩
    simp only [lookupCount, List.lookup]
    by_cases h : k == a
    · simp [h]; exact hh
    · simp [h]; exact ih ht k

/-- Summing the looked-up counts over the (distinct) keys of a table gives
the total count. -/
lemma sum_lookupCount : ∀ (stats : List (ℤ × ℤ)),
    (stats.map Prod.fst).Nodup →
    ((stats.map Prod.fst).map (lookupCount stats)).sum = totalCount stats := by
  intro stats
  induction stats with
  | nil => intro _; rfl
  | cons hd tl ih =>
    intro hnodup
    rcases hd with ⟨a, b⟩
    have hna : a ∉ tl.map Prod.fst := (List.nodup_cons.1 hnodup).1
    have hnd : (tl.map Prod.fst).Nodup := (List.nodup_cons.1 hnodup).2
    have hhead : lookupCount ((a, b) :: tl) a = b := by
      simp [lookupCount, List.lookup]
    have htail : (tl.map Prod.fst).map (lookupCount ((a, b) :: tl))
        = (tl.map Prod.fst).map (lookupCount tl) := by
      refine List.map_congr_left ?_
      intro k hk
      have hka : ¬ (k == a) := by
        simp only [beq_iff_eq]
        intro hkeq
        exact hna (hkeq ▸ hk)
      simp [lookupCount, List.lookup, hka]
    simp only [List.map_cons, List.sum_cons, hhead, htail, ih hnd]
    simp [totalCount]

/-- The CDF list has one entry per key. -/
lemma cdfOfKeys_length (stats : List (ℤ × ℤ)) (T : ℤ) :
    ∀ (keys : List ℤ) (run : ℤ),
      (cdfOfKeys stats T keys run).length = keys.length := by
  intro keys
  induction keys with
  | nil => intro run; rfl
  | cons k ks ih => intro run; simp [cdfOfKeys, ih]

/-- Every entry of the CDF tail is at least the entering running sum divided
by the (positive) total. -/
lemma cdfOfKeys_ge (stats : List (ℤ × ℤ)) (T : ℤ) (hT : (0 : ℚ) < (T : ℚ))
    (hnn : ∀ k, 0 ≤ lookupCount stats k) :
    ∀ (keys : List ℤ) (run : ℤ) (x : ℚ), x ∈ cdfOfKeys stats T keys run →
      ((run : ℚ) / (T : ℚ)) ≤ x := by
  intro keys
  induction keys with
  | nil => intro run x hx; simp [cdfOfKeys] at hx
  | cons k ks ih =>
    intro run x hx
    have hstep : ((run : ℚ) / (T : ℚ)) ≤ (((run + lookupCount stats k : ℤ) : ℚ) / (T : ℚ)) := by
      have h1 : ((run : ℤ) : ℚ) ≤ ((run + lookupCount stats k : ℤ) : ℚ) := by
        have := hnn k
        exact_mod_cast by omega
      exact (div_le_div_right hT).mpr h1
    simp only [cdfOfKeys, List.mem_cons] at hx
    rcases hx with h | h
    · rw [h]; exact hstep
    · exact le_trans hstep (ih (run + lookupCount stats k) x h)

/-- With a positive total and non-negative counts the CDF entries are
non-decreasing. -/
lemma cdfOfKeys_sorted (stats : List (ℤ × ℤ)) (T : ℤ) (hT : (0 : ℚ) < (T : ℚ))
    (hnn : ∀ k, 0 ≤ lookupCount stats k) :
    ∀ (keys : List ℤ) (run : ℤ),
      (cdfOfKeys stats T keys run).Sorted (· ≤ ·) := by
  intro keys
  induction keys with
  | nil => intro run; simp [cdfOfKeys]
  | cons k ks ih =>
    intro run
    simp only [cdfOfKeys, List.sorted_cons]
    exact ⟨fun x hx => cdfOfKeys_ge stats T hT hnn ks _ x hx, ih _⟩

/-- The last CDF entry is the full running sum over the (non-empty) key list
divided by the total. -/
lemma cdfOfKeys_getLast (stats : List (ℤ × ℤ)) (T : ℤ) :
    ∀ (keys : List ℤ) (run : ℤ), keys ≠ [] →
      (cdfOfKeys stats T keys run).getLast?
        = some (((run + (keys.map (lookupCount stats)).sum : ℤ) : ℚ) / (T : ℚ)) := by
  intro keys
  induction keys with
  | nil => intro run h; exact absurd rfl h
  | cons k ks ih =>
    intro run _
    rcases ks with _ | ⟨k2, ks2⟩
    · simp [cdfOfKeys]
    · have htail := ih (run + lookupCount stats k) (by simp)
      have hcons2 : cdfOfKeys stats T (k2 :: ks2) (run + lookupCount stats k)
          = (((run + lookupCount stats k + lookupCount stats k2 : ℤ) : ℚ) / (T : ℚ))
            :: cdfOfKeys stats T ks2
                (run + lookupCount stats k + lookupCount stats k2) := rfl
      show ((((run + lookupCount stats k : ℤ) : ℚ) / (T : ℚ))
          :: cdfOfKeys stats T (k2 :: ks2) (run + lookupCount stats k)).getLast? = _
      rw [hcons2, List.getLast?_cons_cons, ← hcons2, htail]
      have hint : run + lookupCount stats k
            + (List.map (lookupCount stats) (k2 :: ks2)).sum
          = run + (List.map (lookupCount stats) (k :: k2 :: ks2)).sum := by
        simp only [List.map_cons, List.sum_cons]
        ring
      rw [hint]

/-- Sorting with `≤` and distinct elements yields a strictly ascending
list. -/
lemma sorted_lt_of_sorted_le_nodup (l : List ℤ) (hs : l.Sorted (· ≤ ·))
    (hn : l.Nodup) : l.Sorted (· < ·) :=
  (hs.and hn).imp (fun h => lt_of_le_of_ne h.1 h.2)

/-- The sorted key list is a permutation of the table's keys. -/
lemma sortedKeys_perm (stats : List (ℤ × ℤ)) :
    (sortedKeys stats).Perm (stats.map Prod.fst) :=
  List.perm_insertionSort _ _

/-- The sorted key list is sorted. -/
lemma sortedKeys_sorted (stats : List (ℤ × ℤ)) :
    (sortedKeys stats).Sorted (· ≤ ·) :=
  List.sorted_insertionSort _ _

/-- C9: for every frequency table with positive total count, no negative
counts, and distinct keys (a Go map), the CDF built by `createCDFForStat`
has strictly ascending `Values`, a non-decreasing cumulative-probability
sequence, and final probability exactly 1. -/
theorem createCDFForStat_invariants (stats : List (ℤ × ℤ))
    (hpos : 0 < totalCount stats)
    (hnn : ∀ kv ∈ stats, 0 ≤ kv.2)
    (hnodup : (stats.map Prod.fst).Nodup) :
    ((createCDFForStat stats).Values).Sorted (· < ·)
    ∧ ((createCDFForStat stats).CDF).Sorted (· ≤ ·)
    ∧ ((createCDFForStat stats).CDF).getLast? = some 1 := by
  have hT : (0 : ℚ) < ((totalCount stats : ℤ) : ℚ) := by exact_mod_cast hpos
  have hlk : ∀ k, 0 ≤ lookupCount stats k := lookupCount_nonneg stats hnn
  have hkeysnodup : (sortedKeys stats).Nodup := (sortedKeys_perm stats).nodup_iff.2 hnodup
  refine ⟨?_, ?_, ?_⟩
  · exact sorted_lt_of_sorted_le_nodup _ (sortedKeys_sorted stats) hkeysnodup
  · exact cdfOfKeys_sorted stats (totalCount stats) hT hlk (sortedKeys stats) 0
  · have hne : sortedKeys stats ≠ [] := by
      intro h
      have hperm := sortedKeys_perm stats
      rw [h] at hperm
      have hmapnil : stats.map Prod.fst = [] := hperm.nil_eq.symm
      have hstats : stats = [] := List.map_eq_nil_iff.1 hmapnil
      rw [hstats] at hpos
      simp [totalCount] at hpos
    have hlast := cdfOfKeys_getLast stats (totalCount stats) (sortedKeys stats) 0 hne
    have hsum : ((sortedKeys stats).map (lookupCount stats)).sum = totalCount stats := by
      have hp := (sortedKeys_perm stats).map (lookupCount stats)
      rw [hp.sum_eq]
      exact sum_lookupCount stats hnodup
    show (cdfOfKeys stats (totalCount stats) (sortedKeys stats) 0).getLast? = some 1
    rw [hlast, hsum]
    congr 1
    rw [zero_add]
    exact div_self (ne_of_gt hT)

/-- C9 (witness): the CDF invariants on the concrete table
`{1 ↦ 1, 2 ↦ 3}` (total 4, CDF `[1/4, 1]`). -/
theorem createCDFForStat_invariants_witness :
    ((createCDFForStat [(1, 1), (2, 3)]).Values).Sorted (· < ·)
    ∧ ((createCDFForStat [(1, 1), (2, 3)]).CDF).Sorted (· ≤ ·)
    ∧ ((createCDFForStat [(1, 1), (2, 3)]).CDF).getLast? = some 1 :=
  createCDFForStat_invariants [(1, 1), (2, 3)] (by decide) (by norm_num) (by decide)

/-- All entries of a CDF built over a zero total are the degenerate value
`runningSum/0` (0 under the rational division-by-zero convention; the same
loop in Go produces NaN floats — in neither model does it fail). -/
lemma cdfOfKeys_zero_total (stats : List (ℤ × ℤ)) (T : ℤ) (hT : T = 0) :
    ∀ (keys : List ℤ) (run : ℤ) (x : ℚ), x ∈ cdfOfKeys stats T keys run → x = 0 := by
  subst hT
  intro keys
  induction keys with
  | nil => intro run x hx; simp [cdfOfKeys] at hx
  | cons k ks ih =>
    intro run x hx
    simp only [cdfOfKeys, List.mem_cons] at hx
    rcases hx with h | h
    · rw [h]; simp
    · exact ih _ x h

/-- C4 (counterexample): an empty frequency table has total count 0, yet
`createCDFForStat` does not fail — the source performs no zero-total check
and has no error path at all — it returns the degenerate empty sampler as
an ordinary value. -/
theorem createCDFForStat_zero_total_counterexample :
    totalCount [] = 0 ∧ createCDFForStat [] = ⟨[], []⟩ :=
  ⟨rfl, rfl⟩

/-- C4 (amended): for every frequency table whose total occurrence count is
zero, building the CDF does not fail with an `InvalidDistribution` error (no
such error exists in the source): `createCDFForStat` silently returns a
degenerate sampler whose `Values` are the sorted keys and whose probability
entries are all `runningSum/0` — NaN in Go's float division, 0 under the
exact-rational embedding. -/
theorem createCDFForStat_zero_total_degenerate (stats : List (ℤ × ℤ))
    (h : totalCount stats = 0) :
    (createCDFForStat stats).Values = sortedKeys stats
    ∧ (createCDFForStat stats).CDF.length = (createCDFForStat stats).Values.length
    ∧ ∀ x ∈ (createCDFForStat stats).CDF, x = 0 := by
  refine ⟨rfl, cdfOfKeys_length stats (totalCount stats) (sortedKeys stats) 0, ?_⟩
  intro x hx
  exact cdfOfKeys_zero_total stats (totalCount stats) h (sortedKeys stats) 0 x hx

/-- C4 (witness): the non-failure theorem on the one-key table `{5 ↦ 0}`
with zero total: construction succeeds with the degenerate sampler
`⟨[5], [0]⟩`. -/
theorem createCDFForStat_zero_total_degenerate_witness :
    totalCount [(5, 0)] = 0
    ∧ ((createCDFForStat [(5, 0)]).Values = sortedKeys [(5, 0)]
      ∧ (createCDFForStat [(5, 0)]).CDF.length = (createCDFForStat [(5, 0)]).Values.length
      ∧ ∀ x ∈ (createCDFForStat [(5, 0)]).CDF, x = 0) :=
  ⟨rfl, createCDFForStat_zero_total_degenerate [(5, 0)] rfl⟩

/-- On a `≤`-sorted list, `getD` reads are monotone in the index. -/
lemma sorted_getD_mono {c : List ℚ} (hs : c.Sorted (· ≤ ·)) {i j : ℕ}
    (hij : i ≤ j) (hj : j < c.length) : c.getD i 0 ≤ c.getD j 0 := by
  have hi : i < c.length := lt_of_le_of_lt hij hj
  rcases lt_or_eq_of_le hij with h | h
  · have hr := List.Sorted.rel_get_of_lt hs
      (show (⟨i, hi⟩ : Fin c.length) < (⟨j, hj⟩ : Fin c.length) from Fin.mk_lt_mk.mpr h)
    rw [List.getD_eq_getElem c 0 hi, List.getD_eq_getElem c 0 hj]
    simpa using hr
  · subst h
    exact le_refl _

/-- Specification of the fuel-indexed binary search: on a `≤`-sorted list,
searching `[l, r]` with sufficient fuel returns an index in `[l, r]`, all
entries strictly before the result (within the window) are `< target`, and
either the entry at the result is `≥ target` or the result is the right
boundary. -/
lemma bsearchGo_spec (c : List ℚ) (t : ℚ) (hs : c.Sorted (· ≤ ·)) :
    ∀ (fuel l r : ℕ), l ≤ r → r < c.length → r - l ≤ fuel →
      l ≤ bsearchGo c t fuel l r
      ∧ bsearchGo c t fuel l r ≤ r
      ∧ (∀ j, l ≤ j → j < bsearchGo c t fuel l r → c.getD j 0 < t)
      ∧ (t ≤ c.getD (bsearchGo c t fuel l r) 0 ∨ bsearchGo c t fuel l r = r) := by
  intro fuel
  induction fuel with
  | zero =>
    intro l r hlr hr hf
    have hl : l = r := by omega
    subst hl
    refine ⟨?_, ?_, fun j h1 h2 => ?_, Or.inr ?_⟩
    · exact le_refl _
    · exact le_refl _
    · simp only [bsearchGo] at h2; omega
    · rfl
  | succ m ih =>
    intro l r hlr hr hf
    by_cases heq : l = r
    · subst heq
      have hred : bsearchGo c t (m + 1) l l = l := by simp [bsearchGo]
      refine ⟨?_, ?_, fun j h1 h2 => ?_, Or.inr ?_⟩
      · rw [hred]
      · rw [hred]
      · rw [hred] at h2; omega
      · rw [hred]
    · have hlt : l < r := by omega
      simp only [bsearchGo, if_neg heq]
      have hm1 : l ≤ (l + r) / 2 := by omega
      have hm2 : (l + r) / 2 < r := by omega
      by_cases hc : c.getD ((l + r) / 2) 0 < t
      · rw [if_pos hc]
        have hrec := ih ((l + r) / 2 + 1) r (by omega) hr (by omega)
        refine ⟨by omega, hrec.2.1, ?_, hrec.2.2.2⟩
        intro j hj1 hj2
        by_cases hjm : j ≤ (l + r) / 2
        · exact lt_of_le_of_lt (sorted_getD_mono hs hjm (lt_trans hm2 hr)) hc
        · exact hrec.2.2.1 j (by omega) hj2
      · rw [if_neg hc]
        have hrec := ih l ((l + r) / 2) (by omega) (lt_trans hm2 hr) (by omega)
        have hle : t ≤ c.getD (bsearchGo c t m l ((l + r) / 2)) 0 := by
          rcases hrec.2.2.2 with h | h
          · exact h
          · rw [h]; exact not_lt.1 hc
        exact ⟨hrec.1, le_trans hrec.2.1 (le_of_lt hm2), hrec.2.2.1, Or.inl hle⟩

/-- C8: for every CDF with non-empty arrays of equal length whose
probability sequence is non-decreasing (the data-model invariant of
`EmpiricalCDF`) and every draw in `[0, 1)`,
`binarySearchUpperBound(cdf, 0, n−1, target)` returns the smallest index
whose cumulative probability is ≥ the target — all earlier entries are
strictly below the target, and either the returned entry is ≥ the target or
the returned index is `n − 1` (the case where no entry qualifies) — and
sampling via `generateValueFromCDF` returns the value at that index. -/
theorem binarySearchUpperBound_least_index (vals : List ℤ) (c : List ℚ) (t : ℚ)
    (hne : c ≠ []) (hlen : vals.length = c.length) (hs : c.Sorted (· ≤ ·))
    (h0 : 0 ≤ t) (h1 : t < 1) :
    binarySearchUpperBound ⟨vals, c⟩ 0 (c.length - 1) t < c.length
    ∧ (∀ j, j < binarySearchUpperBound ⟨vals, c⟩ 0 (c.length - 1) t →
        c.getD j 0 < t)
    ∧ (t ≤ c.getD (binarySearchUpperBound ⟨vals, c⟩ 0 (c.length - 1) t) 0
        ∨ binarySearchUpperBound ⟨vals, c⟩ 0 (c.length - 1) t = c.length - 1)
    ∧ generateValueFromCDF ⟨vals, c⟩ t
        = vals.getD (binarySearchUpperBound ⟨vals, c⟩ 0 (c.length - 1) t) 0 := by
  have hlen0 : 0 < c.length := List.length_pos.2 hne
  have hspec := bsearchGo_spec c t hs (c.length - 1) 0 (c.length - 1)
    (by omega) (by omega) (by omega)
  have hdef : binarySearchUpperBound ⟨vals, c⟩ 0 (c.length - 1) t
      = bsearchGo c t (c.length - 1) 0 (c.length - 1) := rfl
  refine ⟨?_, ?_, ?_, ?_⟩
  · rw [hdef]; omega
  · intro j hj
    rw [hdef] at hj
    exact hspec.2.2.1 j (Nat.zero_le j) hj
  · rw [hdef]
    exact hspec.2.2.2
  · show vals.getD (binarySearchUpperBound ⟨vals, c⟩ 0 (vals.length - 1) t) 0
      = vals.getD (binarySearchUpperBound ⟨vals, c⟩ 0 (c.length - 1) t) 0
    rw [hlen]

/-- C8 (witness): the search specification on the CDF `[1/4, 1]` with
values `[1, 2]` and draw 1/2. -/
theorem binarySearchUpperBound_least_index_witness :
    binarySearchUpperBound ⟨[1, 2], [1/4, 1]⟩ 0 (([1/4, 1] : List ℚ).length - 1) (1/2)
        < ([1/4, 1] : List ℚ).length
    ∧ (∀ j, j < binarySearchUpperBound ⟨[1, 2], [1/4, 1]⟩ 0
          (([1/4, 1] : List ℚ).length - 1) (1/2) →
        ([1/4, 1] : List ℚ).getD j 0 < 1/2)
    ∧ ((1/2 : ℚ) ≤ ([1/4, 1] : List ℚ).getD
          (binarySearchUpperBound ⟨[1, 2], [1/4, 1]⟩ 0
            (([1/4, 1] : List ℚ).length - 1) (1/2)) 0
        ∨ binarySearchUpperBound ⟨[1, 2], [1/4, 1]⟩ 0
            (([1/4, 1] : List ℚ).length - 1) (1/2)
          = ([1/4, 1] : List ℚ).length - 1)
    ∧ generateValueFromCDF ⟨[1, 2], [1/4, 1]⟩ (1/2)
        = ([1, 2] : List ℤ).getD
            (binarySearchUpperBound ⟨[1, 2], [1/4, 1]⟩ 0
              (([1/4, 1] : List ℚ).length - 1) (1/2)) 0 :=
  binarySearchUpperBound_least_index [1, 2] [1/4, 1] (1/2) (by simp) rfl
    (by norm_num [List.sorted_cons]) (by norm_num) (by norm_num)

end FantasyDraft
